import Mathlib

/-!
Shallow embedding of the model-capability registry and the quota handlers of
the CLIProxyAPIPlus management subsystem, together with proofs of the
specification claims about them.

Conventions of the embedding:
* Go slices of pointers (`[]*ModelInfo`) become `List (Option ModelInfo)`;
  a `none` element models a nil pointer.
* Go maps used only through ordered iteration (`map[string]*AntigravityModelEntry`)
  become association lists; the list order models the (unspecified) iteration
  order of the Go map, so theorems quantify over it where determinism matters.
* JSON numbers are only copied, never computed with, so they are modelled as
  rationals (`Rat`).
* The network and the JSON decoder are external effects; they are modelled as
  explicit "world" parameters, and each adapter returns the list of outbound
  requests it issued (its trace) next to its result.
-/

namespace Registry

/-- Kernel-computable rendering of Go's `strings.ToLower` (character-wise
lowercasing; the embedding, like `Char.toLower`, lowers the ASCII letters,
which covers every key the registry uses). -/
def goToLower (s : String) : String :=
  ⟨s.data.map Char.toLower⟩

/-- Dropping leading and trailing whitespace from a character list. -/
def trimChars (l : List Char) : List Char :=
  ((l.dropWhile Char.isWhitespace).reverse.dropWhile Char.isWhitespace).reverse

/-- Kernel-computable rendering of Go's `strings.TrimSpace`. -/
def goTrim (s : String) : String :=
  ⟨trimChars s.data⟩

/-- Reasoning-support shape of a model: a numeric thinking-budget range or a
set of named effort levels (source struct `ThinkingSupport`). -/
structure ThinkingSupport where
  min : Int
  max : Int
  zeroAllowed : Bool
  dynamicAllowed : Bool
  levels : List String
deriving DecidableEq, Repr

/-- A model descriptor (source struct `ModelInfo`; the Go field `Type` is
rendered `typ`). Fields not set by a Go composite literal take the Go zero
value, see `zeroModelInfo`. -/
structure ModelInfo where
  id : String
  object : String
  created : Int
  ownedBy : String
  typ : String
  displayName : String
  description : String
  contextLength : Int
  maxCompletionTokens : Int
  supportedEndpoints : List String
  thinking : Option ThinkingSupport
deriving DecidableEq, Repr

/-- The Go zero value of `ModelInfo`: empty strings, zero integers, nil
slice, nil pointer. -/
def zeroModelInfo : ModelInfo :=
  { id := "", object := "", created := 0, ownedBy := "", typ := ""
    displayName := "", description := "", contextLength := 0
    maxCompletionTokens := 0, supportedEndpoints := [], thinking := none }

/-- Modelled from the spec: the antigravity override entry kept in the keyed
configuration map (the defining file `model_definitions_static_data.go` is not
part of the excerpt); the fields are the two read by
`GetStaticModelDefinitionsByChannel` and `LookupStaticModelInfo`. -/
structure AntigravityModelEntry where
  thinking : Option ThinkingSupport
  maxCompletionTokens : Int
deriving DecidableEq, Repr

/-- Modelled from the spec: the static per-channel capability tables
(`GetClaudeModels`, ..., `GetIFlowModels`) and the antigravity configuration
map (`GetAntigravityModelConfig`) live in a static-data file absent from the
excerpt, so the registry functions are embedded parameterised over them.
Array tables are lists of possibly-nil descriptors; the antigravity map is an
association list whose order models the Go map's iteration order. -/
structure StaticTables where
  claude : List (Option ModelInfo)
  gemini : List (Option ModelInfo)
  vertex : List (Option ModelInfo)
  geminiCLI : List (Option ModelInfo)
  aistudio : List (Option ModelInfo)
  openai : List (Option ModelInfo)
  qwen : List (Option ModelInfo)
  iflow : List (Option ModelInfo)
  antigravityConfig : List (String × Option AntigravityModelEntry)

/-- The lowercased identifier of a descriptor, as a character list (the sort
key of the antigravity sort). -/
def lowerKey (m : ModelInfo) : List Char :=
  m.id.data.map Char.toLower

/-- Comparison used by the antigravity sort: `strings.ToLower(i.ID) <
strings.ToLower(j.ID)` drives Go's `sort.Slice`, whose postcondition is the
nonstrict lexicographic order on lowered identifiers (Go compares UTF-8
strings bytewise, which agrees with code-point lexicographic order). -/
def antigravityLe (a b : ModelInfo) : Prop :=
  lowerKey a ≤ lowerKey b

instance : DecidableRel antigravityLe := fun a b =>
  inferInstanceAs (Decidable (lowerKey a ≤ lowerKey b))

instance : IsTotal ModelInfo antigravityLe :=
  ⟨fun a b => le_total (lowerKey a) (lowerKey b)⟩

instance : IsTrans ModelInfo antigravityLe :=
  ⟨fun _ _ _ h₁ h₂ => le_trans h₁ h₂⟩

/-- The antigravity branch of `GetStaticModelDefinitionsByChannel`: skip
entries with empty identifier or nil override, build descriptors, sort by
lowercased identifier. Go's `sort.Slice` guarantees only some ordering
consistent with the comparator; the embedding realises it as a stable
insertion sort over the iteration order. -/
def antigravityModelsFromConfig
    (cfg : List (String × Option AntigravityModelEntry)) : List ModelInfo :=
  if cfg.isEmpty then []
  else
    let models := cfg.filterMap fun p =>
      match p with
      | (_, none) => none
      | (mid, some entry) =>
        if mid = "" then none
        else some { zeroModelInfo with
          id := mid, object := "model", ownedBy := "antigravity"
          typ := "antigravity", thinking := entry.thinking
          maxCompletionTokens := entry.maxCompletionTokens }
    List.insertionSort antigravityLe models

/-- Source function `GetStaticModelDefinitionsByChannel`: trim and lowercase
the channel key, dispatch to the channel's table; unknown channels give nil
(embedded as the empty list). -/
def GetStaticModelDefinitionsByChannel (t : StaticTables) (channel : String) :
    List (Option ModelInfo) :=
  let key := goToLower (goTrim channel)
  if key = "claude" then t.claude
  else if key = "gemini" then t.gemini
  else if key = "vertex" then t.vertex
  else if key = "gemini-cli" then t.geminiCLI
  else if key = "aistudio" then t.aistudio
  else if key = "codex" then t.openai
  else if key = "qwen" then t.qwen
  else if key = "iflow" then t.iflow
  else if key = "antigravity" then
    (antigravityModelsFromConfig t.antigravityConfig).map some
  else []

/-- Inner loop of `LookupStaticModelInfo`: first non-nil entry of one table
whose `ID` equals the searched identifier. -/
def findModelInTable (mid : String) : List (Option ModelInfo) → Option ModelInfo
  | [] => none
  | none :: rest => findModelInTable mid rest
  | some m :: rest => if m.id = mid then some m else findModelInTable mid rest

/-- Outer loop of `LookupStaticModelInfo`: scan the tables in order, return
the first table's match. -/
def findModelInTables (mid : String) :
    List (List (Option ModelInfo)) → Option ModelInfo
  | [] => none
  | t :: ts =>
    match findModelInTable mid t with
    | some m => some m
    | none => findModelInTables mid ts

/-- The fixed scan order of `LookupStaticModelInfo` over the array-based
tables (claude, gemini, vertex, gemini-cli, aistudio, codex, qwen, iflow). -/
def scanTables (t : StaticTables) : List (List (Option ModelInfo)) :=
  [t.claude, t.gemini, t.vertex, t.geminiCLI, t.aistudio, t.openai, t.qwen,
   t.iflow]

/-- Indexing the antigravity configuration map
(`GetAntigravityModelConfig()[modelID]`, nil when absent or stored nil). -/
def lookupAntigravityConfig
    (cfg : List (String × Option AntigravityModelEntry)) (mid : String) :
    Option AntigravityModelEntry :=
  match cfg.find? (fun p => p.1 == mid) with
  | some (_, some e) => some e
  | _ => none

/-- Source function `LookupStaticModelInfo`: empty identifier gives nil, then
the array tables are scanned in the fixed order, then the antigravity
configuration is consulted; its hit builds a descriptor carrying only the
identifier, thinking shape and completion-token cap. -/
def LookupStaticModelInfo (t : StaticTables) (mid : String) : Option ModelInfo :=
  if mid = "" then none
  else
    match findModelInTables mid (scanTables t) with
    | some m => some m
    | none =>
      match lookupAntigravityConfig t.antigravityConfig mid with
      | some e => some { zeroModelInfo with
          id := mid, thinking := e.thinking
          maxCompletionTokens := e.maxCompletionTokens }
      | none => none

/-- The channel keys the registry dispatch recognises. -/
def knownChannels : List String :=
  ["claude", "gemini", "vertex", "gemini-cli", "aistudio", "codex", "qwen",
   "iflow", "antigravity"]

end Registry

namespace Quota

/-- A value of the loosely typed credential metadata mapping
(`map[string]interface{}`); the Go type assertion `.(string)` succeeds
exactly on the `str` constructor. -/
inductive MetaValue where
  | str (s : String)
  | num (q : Rat)
  | boolean (b : Bool)
  | null
deriving DecidableEq, Repr

/-- The metadata mapping of a credential record, as an association list. -/
abbrev Metadata := List (String × MetaValue)

/-- Reading a string field from the metadata: the Go idiom
`if t, ok := auth.Metadata[key].(string); ok { x = t }` starting from the
empty string, so a missing key and a non-string value both give `""` (a nil
map also looks up to absent values, so the Copilot handler's nil-map guard
changes nothing observable). -/
def metaStringField (md : Metadata) (key : String) : String :=
  match md.find? (fun p => p.1 == key) with
  | some (_, .str s) => s
  | _ => ""

/-- The credential record returned by the auth manager; only its metadata is
read by the quota handlers. -/
structure Auth where
  metadata : Metadata
deriving DecidableEq, Repr

/-- The credential store lookup `GetByID`; `none` covers both the not-ok
result and a nil record pointer, which the handlers treat identically
(`if !ok || auth == nil`). -/
abbrev AuthManager := String → Option Auth

/-- Which Go context an outbound HTTP request was built with:
`derivedFromInbound n` models `context.WithTimeout(c.Request.Context(), n*time.Second)`
passed to `http.NewRequestWithContext`, and `background` models a request
built by plain `http.NewRequest`, which carries no caller context. -/
inductive CtxKind where
  | derivedFromInbound (timeoutSecs : Nat)
  | background
deriving DecidableEq, Repr

/-- Outcome of one outbound HTTP round trip: transport failure
(`client.Do` error), body-read failure (`io.ReadAll` error), or a status
code with a body. -/
inductive NetResult where
  | transportError (msg : String)
  | readError (msg : String)
  | response (status : Nat) (body : String)
deriving DecidableEq, Repr

/-- JSON body of a Kiro (CodeWhisperer) request: the empty object sent by
`listProfiles`, or the `origin`/`resourceType` object of `getUsageLimits`
with its optional `profileArn` field. -/
inductive KiroPayload where
  | listProfilesPayload
  | usagePayload (profileArn : Option String)
deriving DecidableEq, Repr

/-- One outbound Kiro request as `makeKiroRequest` builds it: the context it
was created with, the `x-amz-target` header, the bearer token and the JSON
payload. -/
structure KiroRequest where
  ctx : CtxKind
  target : String
  accessToken : String
  payload : KiroPayload
deriving DecidableEq, Repr

/-- One profile of the `ListProfiles` response (source struct
`kiroProfilesResult.Profiles` elements). -/
structure KiroProfile where
  profileArn : String
deriving DecidableEq, Repr

/-- Parsed `ListProfiles` response (source struct `kiroProfilesResult`). -/
structure KiroProfilesResult where
  profiles : List KiroProfile
deriving DecidableEq, Repr

/-- One usage category of the `GetUsageLimits` response. -/
structure KiroUsageBreakdown where
  currentUsageWithPrecision : Rat
  usageLimitWithPrecision : Rat
deriving DecidableEq, Repr

/-- Subscription part of the `GetUsageLimits` response. -/
structure KiroSubscriptionInfo where
  subscriptionTitle : String
deriving DecidableEq, Repr

/-- Parsed `GetUsageLimits` response (source struct `kiroUsageResult`). -/
structure KiroUsageResult where
  subscriptionInfo : KiroSubscriptionInfo
  usageBreakdownList : List KiroUsageBreakdown
  nextDateReset : Rat
deriving DecidableEq, Repr

/-- External effects of the Kiro handler: the network (`client.Do` plus body
read) and the JSON decoder (`json.Unmarshal`) for each response shape. -/
structure KiroWorld where
  net : KiroRequest → NetResult
  parseProfiles : String → Except String KiroProfilesResult
  parseUsage : String → Except String KiroUsageResult

/-- The `x-amz-target` value selecting the usage operation. -/
def targetGetUsage : String := "AmazonCodeWhispererService.GetUsageLimits"

/-- The `x-amz-target` value selecting the profile-listing operation. -/
def targetListProfiles : String := "AmazonCodeWhispererService.ListProfiles"

/-- Source function `makeKiroRequest`: build the request, run it, and return
the raw body on HTTP 200, the documented error otherwise; the second
component is the outbound-call trace. -/
def makeKiroRequest (w : KiroWorld) (ctx : CtxKind)
    (target accessToken : String) (payload : KiroPayload) :
    Except String String × List KiroRequest :=
  let req : KiroRequest :=
    { ctx := ctx, target := target, accessToken := accessToken
      payload := payload }
  match w.net req with
  | .transportError msg => (.error ("request failed: " ++ msg), [req])
  | .readError msg => (.error ("failed to read response: " ++ msg), [req])
  | .response status body =>
    if status ≠ 200 then
      (.error ("API error (status " ++ toString status ++ "): " ++ body),
       [req])
    else (.ok body, [req])

/-- Source function `listProfiles`: issue the listing call and collect the
profile ARNs of the parsed response. -/
def listProfiles (w : KiroWorld) (ctx : CtxKind) (accessToken : String) :
    Except String (List String) × List KiroRequest :=
  match makeKiroRequest w ctx targetListProfiles accessToken
      .listProfilesPayload with
  | (.error e, tr) => (.error e, tr)
  | (.ok body, tr) =>
    match w.parseProfiles body with
    | .error e => (.error ("failed to parse profiles response: " ++ e), tr)
    | .ok result => (.ok (result.profiles.map (fun p => p.profileArn)), tr)

/-- Source function `getUsageLimits`: issue the usage call, including the
`profileArn` payload field only when the identifier is nonempty. -/
def getUsageLimits (w : KiroWorld) (ctx : CtxKind)
    (accessToken profileArn : String) :
    Except String KiroUsageResult × List KiroRequest :=
  let payload := KiroPayload.usagePayload
    (if profileArn = "" then none else some profileArn)
  match makeKiroRequest w ctx targetGetUsage accessToken payload with
  | (.error e, tr) => (.error e, tr)
  | (.ok body, tr) =>
    match w.parseUsage body with
    | .error e => (.error ("failed to parse usage response: " ++ e), tr)
    | .ok result => (.ok result, tr)

/-- The success JSON body of the Kiro quota handler; field names carry the
response keys `subscription_title`, `credit_usage`, `context_usage_percent`,
`monthly_credit_limit`, `monthly_context_limit`. -/
structure KiroQuotaResponse where
  subscriptionTitle : String
  creditUsage : Rat
  contextUsagePercent : Rat
  monthlyCreditLimit : Rat
  monthlyContextLimit : Rat
deriving DecidableEq, Repr

/-- The HTTP reply of the Kiro quota handler: an error JSON with a status
code, or the 200 quota JSON. -/
inductive KiroHandlerResult where
  | jsonError (status : Nat) (errMsg : String)
  | jsonOk (resp : KiroQuotaResponse)
deriving DecidableEq, Repr

/-- Source handler `GetKiroQuota` (the discovery-then-fetch resolver):
validate the account identifier, look up the credential, extract the token
and optional profile ARN from metadata, run discovery when the ARN is
absent (its failure is only logged), fetch usage under a 30-second timeout
derived from the inbound request context, and normalize the first usage
breakdown entry. The second component is the outbound-call trace. -/
def GetKiroQuota (w : KiroWorld) (authManager : Option AuthManager)
    (authID : String) : KiroHandlerResult × List KiroRequest :=
  if authID = "" then (.jsonError 400 "auth_id is required", [])
  else
    match authManager with
    | none => (.jsonError 500 "auth manager not available", [])
    | some getByID =>
      match getByID authID with
      | none => (.jsonError 404 "auth not found", [])
      | some auth =>
        let accessToken := metaStringField auth.metadata "access_token"
        if accessToken = "" then
          (.jsonError 400 "access_token not found in auth data", [])
        else
          let metaArn := metaStringField auth.metadata "profile_arn"
          let ctx := CtxKind.derivedFromInbound 30
          let discovery : String × List KiroRequest :=
            if metaArn = "" then
              match listProfiles w ctx accessToken with
              | (.error _, tr) => ("", tr)
              | (.ok arns, tr) =>
                (match arns with
                 | a :: _ => a
                 | [] => "", tr)
            else (metaArn, [])
          match getUsageLimits w ctx accessToken discovery.1 with
          | (.error e, tr2) =>
            (.jsonError 500 ("failed to fetch usage: " ++ e),
             discovery.2 ++ tr2)
          | (.ok usage, tr2) =>
            let base : KiroQuotaResponse :=
              { subscriptionTitle := usage.subscriptionInfo.subscriptionTitle
                creditUsage := 0
                contextUsagePercent := 0
                monthlyCreditLimit := 0
                monthlyContextLimit := 100 }
            let resp := match usage.usageBreakdownList with
              | b :: _ =>
                { base with
                  creditUsage := b.currentUsageWithPrecision
                  monthlyCreditLimit := b.usageLimitWithPrecision }
              | [] => base
            (.jsonOk resp, discovery.2 ++ tr2)

/-- One outbound Copilot request as `fetchCopilotUsage` builds it, with the
context kind it was created with, the fixed client timeout, and the fixed
identification headers. -/
structure CopilotCall where
  ctx : CtxKind
  clientTimeoutSecs : Nat
  url : String
  authorization : String
  userAgent : String
  editorVersion : String
  editorPluginVersion : String
  apiVersion : String
deriving DecidableEq, Repr

/-- Quota information of one Copilot quota type (source struct
`QuotaDetail`). -/
structure QuotaDetail where
  entitlement : Rat
  overageCount : Rat
  overagePermitted : Bool
  percentRemaining : Rat
  quotaID : String
  quotaRemaining : Rat
  remaining : Rat
  unlimited : Bool
deriving DecidableEq, Repr

/-- The three Copilot quota categories (source struct `QuotaSnapshots`). -/
structure QuotaSnapshots where
  chat : QuotaDetail
  completions : QuotaDetail
  premiumInteractions : QuotaDetail
deriving DecidableEq, Repr

/-- Parsed Copilot usage response (source struct `CopilotUsageResponse`);
the two organization lists hold opaque JSON values, modelled as unit
elements. -/
structure CopilotUsageResponse where
  accessTypeSKU : String
  analyticsTrackingID : String
  assignedDate : String
  canSignupForLimited : Bool
  chatEnabled : Bool
  copilotPlan : String
  organizationLoginList : List Unit
  organizationList : List Unit
  quotaResetDate : String
  quotaSnapshots : QuotaSnapshots
deriving DecidableEq, Repr

/-- External effects of the Copilot handler: network and JSON decoder. -/
structure CopilotWorld where
  net : CopilotCall → NetResult
  parseUsage : String → Except String CopilotUsageResponse

/-- The request `fetchCopilotUsage` builds for a given token: built by
`http.NewRequest`, hence with no caller context, a fixed 30-second client
timeout, `token <value>` authorization and the fixed first-party client
headers. -/
def copilotRequest (token : String) : CopilotCall :=
  { ctx := .background
    clientTimeoutSecs := 30
    url := "https://api.github.com/copilot_internal/user"
    authorization := "token " ++ token
    userAgent := "GitHubCopilotChat/0.26.7"
    editorVersion := "vscode/1.100.0"
    editorPluginVersion := "copilot-chat/0.26.7"
    apiVersion := "2025-04-01" }

/-- Source function `fetchCopilotUsage`: single authenticated GET; non-200
surfaces the status code and raw body, a 200 body that fails to decode
surfaces a parse failure. The second component is the outbound-call
trace. -/
def fetchCopilotUsage (w : CopilotWorld) (token : String) :
    Except String CopilotUsageResponse × List CopilotCall :=
  let req := copilotRequest token
  match w.net req with
  | .transportError msg => (.error ("request failed: " ++ msg), [req])
  | .readError msg => (.error ("failed to read response: " ++ msg), [req])
  | .response status body =>
    if status ≠ 200 then
      (.error ("API returned status " ++ toString status ++ ": " ++ body),
       [req])
    else
      match w.parseUsage body with
      | .error e => (.error ("failed to parse response: " ++ e), [req])
      | .ok usage => (.ok usage, [req])

/-- The HTTP reply of the Copilot quota handler. -/
inductive CopilotHandlerResult where
  | jsonError (status : Nat) (errMsg : String)
  | jsonOk (resp : CopilotUsageResponse)
deriving DecidableEq, Repr

/-- Source handler `GetCopilotQuota` (the direct-fetch resolver): validate
the account identifier, look up the credential, extract the token, then
fetch; the nested quota structure is returned verbatim. -/
def GetCopilotQuota (w : CopilotWorld) (authManager : Option AuthManager)
    (authID : String) : CopilotHandlerResult × List CopilotCall :=
  if authID = "" then (.jsonError 400 "auth_id is required", [])
  else
    match authManager with
    | none => (.jsonError 500 "auth manager not available", [])
    | some getByID =>
      match getByID authID with
      | none => (.jsonError 404 "auth not found", [])
      | some auth =>
        let token := metaStringField auth.metadata "access_token"
        if token = "" then
          (.jsonError 400 "no access token found in auth", [])
        else
          match fetchCopilotUsage w token with
          | (.error e, tr) =>
            (.jsonError 500 ("failed to fetch usage: " ++ e), tr)
          | (.ok usage, tr) => (.jsonOk usage, tr)

/-- The usage request `getUsageLimits` issues for a given token and profile
ARN (the ARN field is present in the payload only when nonempty). -/
def kiroUsageRequest (token arn : String) : KiroRequest :=
  { ctx := .derivedFromInbound 30, target := targetGetUsage
    accessToken := token
    payload := .usagePayload (if arn = "" then none else some arn) }

/-- The discovery request `listProfiles` issues for a given token. -/
def kiroListRequest (token : String) : KiroRequest :=
  { ctx := .derivedFromInbound 30, target := targetListProfiles
    accessToken := token, payload := .listProfilesPayload }

/-- The profile ARN the Kiro handler hands to the fetch step: the stored one
when present, otherwise the first identifier of a successful discovery, and
the empty string when discovery fails or returns nothing. -/
def kiroResolvedArn (w : KiroWorld) (auth : Auth) : String :=
  let tok := metaStringField auth.metadata "access_token"
  let metaArn := metaStringField auth.metadata "profile_arn"
  if metaArn = "" then
    match (listProfiles w (.derivedFromInbound 30) tok).1 with
    | .ok (a :: _) => a
    | _ => ""
  else metaArn

/-- The discovery part of the Kiro handler's outbound trace: one listing
request when the stored credential has no profile ARN, none otherwise. -/
def kiroDiscoveryTrace (w : KiroWorld) (auth : Auth) : List KiroRequest :=
  if metaStringField auth.metadata "profile_arn" = "" then
    (listProfiles w (.derivedFromInbound 30)
      (metaStringField auth.metadata "access_token")).2
  else []

/-- Normalization of the fetch outcome into the handler reply: on success
only the first usage-breakdown entry is surfaced, the credit fields default
to zero without a breakdown, and the two context fields are the constants 0
and 100. -/
def kiroNormalize : Except String KiroUsageResult → KiroHandlerResult
  | .error e => .jsonError 500 ("failed to fetch usage: " ++ e)
  | .ok usage =>
    .jsonOk
      { subscriptionTitle := usage.subscriptionInfo.subscriptionTitle
        creditUsage :=
          ((usage.usageBreakdownList.head?).map
            (fun b => b.currentUsageWithPrecision)).getD 0
        contextUsagePercent := 0
        monthlyCreditLimit :=
          ((usage.usageBreakdownList.head?).map
            (fun b => b.usageLimitWithPrecision)).getD 0
        monthlyContextLimit := 100 }

end Quota

namespace Fixtures

open Quota

/-- A credential whose metadata holds a token but no profile ARN. -/
def authTokenOnly : Auth := ⟨[("access_token", .str "abc")]⟩

/-- A credential holding both a token and a profile ARN. -/
def authWithArn : Auth :=
  ⟨[("access_token", .str "abc"), ("profile_arn", .str "arn-X")]⟩

/-- A credential whose metadata lacks the token field. -/
def authNoToken : Auth := ⟨[("region", .str "us-east-1")]⟩

/-- An auth manager holding one credential under the identifier `acct`. -/
def mgrWith (a : Auth) : AuthManager :=
  fun authID => if authID = "acct" then some a else none

/-- An auth manager with no credentials. -/
def mgrEmpty : AuthManager := fun _ => none

/-- The rational 12.5 (as 25/2), built by the raw constructor so that the
kernel can evaluate comparisons with it. -/
def ratTwelveAndHalf : Rat := ⟨25, 2, by decide, by decide⟩

/-- Kiro network and decoder for the end-to-end scenario: discovery returns
two ARNs, the usage call (made with the first ARN) reports 12.5 used out of
50. -/
def kiroWorldE2E : KiroWorld :=
  { net := fun r =>
      if r = kiroListRequest "abc" then .response 200 "profilesBody"
      else if r = kiroUsageRequest "abc" "arn-1" then
        .response 200 "usageBody"
      else .transportError "unexpected call"
    parseProfiles := fun body =>
      if body = "profilesBody" then .ok ⟨[⟨"arn-1"⟩, ⟨"arn-2"⟩]⟩
      else .error "unexpected body"
    parseUsage := fun body =>
      if body = "usageBody" then
        .ok ⟨⟨"KIRO PRO"⟩, [⟨ratTwelveAndHalf, 50⟩, ⟨1, 2⟩], 0⟩
      else .error "unexpected body" }

/-- Kiro world where discovery fails with a transport error while the usage
call, made without a profile ARN, succeeds with an omitted usage
breakdown. -/
def kiroWorldDiscoveryFail : KiroWorld :=
  { net := fun r =>
      if r = kiroListRequest "abc" then .transportError "boom"
      else if r = kiroUsageRequest "abc" "" then .response 200 "usageBody"
      else .transportError "unexpected call"
    parseProfiles := fun _ => .error "unexpected body"
    parseUsage := fun body =>
      if body = "usageBody" then .ok ⟨⟨"KIRO FREE"⟩, [], 0⟩
      else .error "unexpected body" }

/-- A Copilot quota detail with all fields at their zero values. -/
def zeroQuotaDetail : QuotaDetail := ⟨0, 0, false, 0, "", 0, 0, false⟩

/-- A sample parsed Copilot usage response. -/
def sampleCopilotUsage : CopilotUsageResponse :=
  ⟨"copilot_pro", "tid", "2024-01-01", false, true, "pro", [], [],
   "2026-01-01", ⟨zeroQuotaDetail, zeroQuotaDetail, zeroQuotaDetail⟩⟩

/-- Copilot world whose endpoint rejects every call with status 429 and body
`rate limited`. -/
def copilotWorld429 : CopilotWorld :=
  { net := fun _ => .response 429 "rate limited"
    parseUsage := fun _ => .error "unexpected body" }

/-- Copilot world whose endpoint accepts the call and whose body decodes. -/
def copilotWorldOk : CopilotWorld :=
  { net := fun _ => .response 200 "copilotBody"
    parseUsage := fun body =>
      if body = "copilotBody" then .ok sampleCopilotUsage
      else .error "unexpected body" }

/-- Copilot world whose endpoint returns 200 with a body that fails to
decode. -/
def copilotWorldBadBody : CopilotWorld :=
  { net := fun _ => .response 200 "garbage"
    parseUsage := fun _ => .error "invalid character" }

open Registry

/-- A descriptor with only identifier and owner set, for registry
fixtures. -/
def plainModel (mid owner : String) : ModelInfo :=
  { zeroModelInfo with id := mid, ownedBy := owner }

/-- Registry tables with no models at all. -/
def emptyTables : StaticTables := ⟨[], [], [], [], [], [], [], [], []⟩

/-- Registry tables where the identifier `X` collides between the claude and
gemini tables (claude is scanned first), the claude table also holds a nil
slot, and the identifier `ag-only` exists only in the antigravity
configuration. -/
def collisionTables : StaticTables :=
  { claude := [none, some (plainModel "X" "claude-side")]
    gemini := [some (plainModel "X" "gemini-side")]
    vertex := [], geminiCLI := [], aistudio := [], openai := []
    qwen := [], iflow := []
    antigravityConfig :=
      [("X", some ⟨none, 5⟩), ("ag-only", some ⟨none, 9⟩)] }

/-- An antigravity override entry used by the ordering fixtures. -/
def agEntry : AntigravityModelEntry := ⟨none, 1⟩

/-- An antigravity configuration whose two identifiers collide after
lowercasing, in one iteration order. -/
def cfgTieA : List (String × Option AntigravityModelEntry) :=
  [("A", some agEntry), ("a", some agEntry)]

/-- The same configuration map as `cfgTieA` in the other iteration order. -/
def cfgTieB : List (String × Option AntigravityModelEntry) :=
  [("a", some agEntry), ("A", some agEntry)]

/-- An antigravity configuration with distinct lowercased identifiers plus
one empty-identifier entry and one nil entry, in one iteration order. -/
def cfgDistinctA : List (String × Option AntigravityModelEntry) :=
  [("b", some ⟨none, 2⟩), ("", some ⟨none, 7⟩), ("A", some agEntry),
   ("skip", none)]

/-- The same configuration map as `cfgDistinctA` in another iteration
order. -/
def cfgDistinctB : List (String × Option AntigravityModelEntry) :=
  [("skip", none), ("A", some agEntry), ("b", some ⟨none, 2⟩),
   ("", some ⟨none, 7⟩)]

end Fixtures

section HelperLemmas

open Quota

/-- Every branch of `makeKiroRequest` issues exactly the one request it
builds. -/
theorem makeKiroRequest_trace (w : KiroWorld) (ctx : CtxKind)
    (target accessToken : String) (payload : KiroPayload) :
    (makeKiroRequest w ctx target accessToken payload).2 =
      [⟨ctx, target, accessToken, payload⟩] := by
  cases hn : w.net ⟨ctx, target, accessToken, payload⟩ with
  | transportError m => simp [makeKiroRequest, hn]
  | readError m => simp [makeKiroRequest, hn]
  | response s b =>
    simp only [makeKiroRequest, hn]
    split <;> simp

/-- The discovery step issues exactly one listing request. -/
theorem listProfiles_trace (w : KiroWorld) (ctx : CtxKind)
    (accessToken : String) :
    (listProfiles w ctx accessToken).2 =
      [⟨ctx, targetListProfiles, accessToken, .listProfilesPayload⟩] := by
  have h := makeKiroRequest_trace w ctx targetListProfiles accessToken
    .listProfilesPayload
  rcases hm : makeKiroRequest w ctx targetListProfiles accessToken
      .listProfilesPayload with ⟨res, tr⟩
  rw [hm] at h
  simp only at h
  cases res with
  | error e => simp [listProfiles, hm, h]
  | ok body =>
    cases hp : w.parseProfiles body <;> simp [listProfiles, hm, hp, h]

/-- The fetch step issues exactly one usage request. -/
theorem getUsageLimits_trace (w : KiroWorld) (ctx : CtxKind)
    (accessToken profileArn : String) :
    (getUsageLimits w ctx accessToken profileArn).2 =
      [⟨ctx, targetGetUsage, accessToken,
        .usagePayload (if profileArn = "" then none else some profileArn)⟩] := by
  have h := makeKiroRequest_trace w ctx targetGetUsage accessToken
    (.usagePayload (if profileArn = "" then none else some profileArn))
  rcases hm : makeKiroRequest w ctx targetGetUsage accessToken
      (.usagePayload (if profileArn = "" then none else some profileArn)) with
    ⟨res, tr⟩
  rw [hm] at h
  simp only at h
  cases res with
  | error e => simp [getUsageLimits, hm, h]
  | ok body =>
    cases hp : w.parseUsage body <;> simp [getUsageLimits, hm, hp, h]

/-- Decomposition of a Kiro handler run past its validation steps: the reply
is the normalization of the fetch outcome at the resolved profile ARN, and
the outbound trace is the discovery trace followed by the fetch trace. -/
theorem getKiroQuota_run (w : KiroWorld) (mgr : AuthManager)
    (authID : String) (auth : Auth)
    (haid : authID ≠ "") (hmgr : mgr authID = some auth)
    (htokne : metaStringField auth.metadata "access_token" ≠ "") :
    GetKiroQuota w (some mgr) authID =
      (kiroNormalize (getUsageLimits w (.derivedFromInbound 30)
          (metaStringField auth.metadata "access_token")
          (kiroResolvedArn w auth)).1,
       kiroDiscoveryTrace w auth ++
         (getUsageLimits w (.derivedFromInbound 30)
            (metaStringField auth.metadata "access_token")
            (kiroResolvedArn w auth)).2) := by
  simp only [GetKiroQuota, haid, hmgr, htokne, if_neg, ite_false]
  by_cases harn : metaStringField auth.metadata "profile_arn" = ""
  · rcases hl : listProfiles w (.derivedFromInbound 30)
        (metaStringField auth.metadata "access_token") with ⟨res1, tr1⟩
    rcases res1 with e | arns
    · rcases hu : getUsageLimits w (.derivedFromInbound 30)
          (metaStringField auth.metadata "access_token") "" with ⟨res2, tr2⟩
      simp only [harn, kiroResolvedArn, kiroDiscoveryTrace, hl, if_true,
        ite_true, if_pos]
      rcases res2 with e2 | usage
      · simp [hu, kiroNormalize, harn, hl]
      · cases hb : usage.usageBreakdownList <;>
          simp [hu, kiroNormalize, harn, hl, hb]
    · rcases arns with _ | ⟨a, rest⟩
      · rcases hu : getUsageLimits w (.derivedFromInbound 30)
            (metaStringField auth.metadata "access_token") "" with ⟨res2, tr2⟩
        simp only [harn, kiroResolvedArn, kiroDiscoveryTrace, hl, if_true,
          ite_true, if_pos]
        rcases res2 with e2 | usage
        · simp [hu, kiroNormalize, harn, hl]
        · cases hb : usage.usageBreakdownList <;>
            simp [hu, kiroNormalize, harn, hl, hb]
      · rcases hu : getUsageLimits w (.derivedFromInbound 30)
            (metaStringField auth.metadata "access_token") a with ⟨res2, tr2⟩
        simp only [harn, kiroResolvedArn, kiroDiscoveryTrace, hl, if_true,
          ite_true, if_pos]
        rcases res2 with e2 | usage
        · simp [hu, kiroNormalize, harn, hl]
        · cases hb : usage.usageBreakdownList <;>
            simp [hu, kiroNormalize, harn, hl, hb]
  · rcases hu : getUsageLimits w (.derivedFromInbound 30)
        (metaStringField auth.metadata "access_token")
        (metaStringField auth.metadata "profile_arn") with ⟨res2, tr2⟩
    simp only [harn, kiroResolvedArn, kiroDiscoveryTrace, if_neg, ite_false]
    rcases res2 with e2 | usage
    · simp [hu, kiroNormalize, harn]
    · cases hb : usage.usageBreakdownList <;>
        simp [hu, kiroNormalize, harn, hb]

end HelperLemmas

/-- Claim C1: for the quota resolution entry points (`GetKiroQuota`,
`GetCopilotQuota`), an empty account identifier yields an invalid-input
error before any credential lookup or network call is attempted; a missing
credential record yields a not-found error distinct from invalid-input; and
a credential whose metadata lacks an access-token field yields a
missing-credential-field error distinct from not-found — and in each of
these three cases no outbound network call is made (the trace is empty). -/
theorem claim1_validation_before_network
    (wK : Quota.KiroWorld) (wC : Quota.CopilotWorld)
    (mgr : Quota.AuthManager) :
    (∀ m, Quota.GetKiroQuota wK m "" =
      (.jsonError 400 "auth_id is required", []))
    ∧ (∀ m, Quota.GetCopilotQuota wC m "" =
      (.jsonError 400 "auth_id is required", []))
    ∧ (∀ authID, authID ≠ "" → mgr authID = none →
        Quota.GetKiroQuota wK (some mgr) authID =
          (.jsonError 404 "auth not found", [])
        ∧ Quota.GetCopilotQuota wC (some mgr) authID =
          (.jsonError 404 "auth not found", []))
    ∧ (∀ authID auth, authID ≠ "" → mgr authID = some auth →
        Quota.metaStringField auth.metadata "access_token" = "" →
        Quota.GetKiroQuota wK (some mgr) authID =
          (.jsonError 400 "access_token not found in auth data", [])
        ∧ Quota.GetCopilotQuota wC (some mgr) authID =
          (.jsonError 400 "no access token found in auth", []))
    ∧ (Quota.KiroHandlerResult.jsonError 404 "auth not found" ≠
        .jsonError 400 "auth_id is required")
    ∧ (Quota.KiroHandlerResult.jsonError 400
        "access_token not found in auth data" ≠
        .jsonError 404 "auth not found") := by
  refine ⟨fun m => by simp [Quota.GetKiroQuota],
          fun m => by simp [Quota.GetCopilotQuota],
          fun authID h hn => ?_, fun authID auth h hs ht => ?_,
          by decide, by decide⟩
  · exact ⟨by simp [Quota.GetKiroQuota, h, hn],
           by simp [Quota.GetCopilotQuota, h, hn]⟩
  · exact ⟨by simp [Quota.GetKiroQuota, h, hs, ht],
           by simp [Quota.GetCopilotQuota, h, hs, ht]⟩

/-- Witness for C1: concrete runs hitting the not-found and missing-token
branches with an empty outbound trace. -/
theorem claim1_witness :
    Quota.GetKiroQuota Fixtures.kiroWorldE2E (some Fixtures.mgrEmpty) "acct"
      = (.jsonError 404 "auth not found", [])
    ∧ Quota.GetCopilotQuota Fixtures.copilotWorldOk
        (some (Fixtures.mgrWith Fixtures.authNoToken)) "acct"
      = (.jsonError 400 "no access token found in auth", []) := by
  refine ⟨((claim1_validation_before_network Fixtures.kiroWorldE2E
      Fixtures.copilotWorldOk Fixtures.mgrEmpty).2.2.1 "acct"
      (by decide) rfl).1, ?_⟩
  exact ((claim1_validation_before_network Fixtures.kiroWorldE2E
      Fixtures.copilotWorldOk (Fixtures.mgrWith Fixtures.authNoToken)).2.2.2.1
      "acct" Fixtures.authNoToken (by decide) (by decide) (by decide)).2

/-- Claim C2: in the Kiro adapter, the discovery (`ListProfiles`) call is
issued if and only if the stored credential supplies no profile ARN; when
discovery succeeds with a non-empty list, the usage call is made with the
first returned identifier; when discovery fails, the failure is only logged
and the usage call still proceeds without a profile ARN and can still
succeed. -/
theorem claim2_discovery_then_fetch
    (w : Quota.KiroWorld) (mgr : Quota.AuthManager) (authID : String)
    (auth : Quota.Auth) (tok : String)
    (haid : authID ≠ "") (hmgr : mgr authID = some auth)
    (htok : Quota.metaStringField auth.metadata "access_token" = tok)
    (htokne : tok ≠ "") :
    ((∃ r ∈ (Quota.GetKiroQuota w (some mgr) authID).2,
        r.target = Quota.targetListProfiles) ↔
      Quota.metaStringField auth.metadata "profile_arn" = "")
    ∧ (∀ arn, Quota.metaStringField auth.metadata "profile_arn" = arn →
        arn ≠ "" →
        (Quota.GetKiroQuota w (some mgr) authID).2 =
          [Quota.kiroUsageRequest tok arn])
    ∧ (∀ pbody pres a rest,
        Quota.metaStringField auth.metadata "profile_arn" = "" →
        w.net (Quota.kiroListRequest tok) = .response 200 pbody →
        w.parseProfiles pbody = .ok pres →
        pres.profiles.map (fun p => p.profileArn) = a :: rest →
        a ≠ "" →
        (Quota.GetKiroQuota w (some mgr) authID).2 =
          [Quota.kiroListRequest tok, Quota.kiroUsageRequest tok a])
    ∧ (∀ msg,
        Quota.metaStringField auth.metadata "profile_arn" = "" →
        w.net (Quota.kiroListRequest tok) = .transportError msg →
        (Quota.GetKiroQuota w (some mgr) authID).2 =
          [Quota.kiroListRequest tok, Quota.kiroUsageRequest tok ""]
        ∧ (∀ ubody usage,
            w.net (Quota.kiroUsageRequest tok "") = .response 200 ubody →
            w.parseUsage ubody = .ok usage →
            (Quota.GetKiroQuota w (some mgr) authID).1 =
              Quota.kiroNormalize (.ok usage))) := by
  subst htok
  have hrun := getKiroQuota_run w mgr authID auth haid hmgr htokne
  have htr := getUsageLimits_trace w (.derivedFromInbound 30)
    (Quota.metaStringField auth.metadata "access_token")
    (Quota.kiroResolvedArn w auth)
  refine ⟨?_, ?_, ?_, ?_⟩
  · rw [hrun]
    constructor
    · intro ⟨r, hr, hrt⟩
      by_cases harn :
          Quota.metaStringField auth.metadata "profile_arn" = ""
      · exact harn
      · exfalso
        simp only [Quota.kiroDiscoveryTrace, harn, ite_false, if_neg,
          List.nil_append, htr] at hr
        simp only [List.mem_singleton] at hr
        subst hr
        simp [Quota.kiroUsageRequest, Quota.targetGetUsage,
          Quota.targetListProfiles] at hrt
    · intro harn
      refine ⟨Quota.kiroListRequest
          (Quota.metaStringField auth.metadata "access_token"), ?_, rfl⟩
      simp [Quota.kiroDiscoveryTrace, harn, listProfiles_trace,
        Quota.kiroListRequest]
  · intro arn harn harnne
    rw [hrun]
    simp [Quota.kiroDiscoveryTrace, Quota.kiroResolvedArn, harn, harnne,
      getUsageLimits_trace, Quota.kiroUsageRequest]
  · intro pbody pres a rest harn hnet hparse hmap hane
    have hlp : Quota.listProfiles w (.derivedFromInbound 30)
        (Quota.metaStringField auth.metadata "access_token") =
        (.ok (a :: rest),
         [Quota.kiroListRequest
           (Quota.metaStringField auth.metadata "access_token")]) := by
      simp [Quota.listProfiles, Quota.makeKiroRequest,
        Quota.kiroListRequest] at hnet ⊢
      simp [hnet, hparse, hmap]
    rw [hrun]
    simp [Quota.kiroDiscoveryTrace, Quota.kiroResolvedArn, harn, hlp,
      getUsageLimits_trace, Quota.kiroUsageRequest, hane]
  · intro msg harn hnet
    have hlp : Quota.listProfiles w (.derivedFromInbound 30)
        (Quota.metaStringField auth.metadata "access_token") =
        (.error ("request failed: " ++ msg),
         [Quota.kiroListRequest
           (Quota.metaStringField auth.metadata "access_token")]) := by
      simp [Quota.listProfiles, Quota.makeKiroRequest,
        Quota.kiroListRequest] at hnet ⊢
      simp [hnet]
    constructor
    · rw [hrun]
      simp [Quota.kiroDiscoveryTrace, Quota.kiroResolvedArn, harn, hlp,
        getUsageLimits_trace, Quota.kiroUsageRequest]
    · intro ubody usage hunet huparse
      have hgu : Quota.getUsageLimits w (.derivedFromInbound 30)
          (Quota.metaStringField auth.metadata "access_token") "" =
          (.ok usage,
           [Quota.kiroUsageRequest
             (Quota.metaStringField auth.metadata "access_token") ""]) := by
        simp [Quota.getUsageLimits, Quota.makeKiroRequest,
          Quota.kiroUsageRequest] at hunet ⊢
        simp [hunet, huparse]
      have harnres : Quota.kiroResolvedArn w auth = "" := by
        simp [Quota.kiroResolvedArn, harn, hlp]
      rw [hrun]
      simp [harnres, hgu]

/-- Witness for C2: in the end-to-end world the discovery call is followed by
a fetch carrying `arn-1`, and in the failing-discovery world the fetch still
runs without an ARN and the handler still succeeds. -/
theorem claim2_witness :
    (Quota.GetKiroQuota Fixtures.kiroWorldE2E
        (some (Fixtures.mgrWith Fixtures.authTokenOnly)) "acct").2 =
      [Quota.kiroListRequest "abc", Quota.kiroUsageRequest "abc" "arn-1"]
    ∧ (Quota.GetKiroQuota Fixtures.kiroWorldDiscoveryFail
        (some (Fixtures.mgrWith Fixtures.authTokenOnly)) "acct").2 =
      [Quota.kiroListRequest "abc", Quota.kiroUsageRequest "abc" ""]
    ∧ (Quota.GetKiroQuota Fixtures.kiroWorldDiscoveryFail
        (some (Fixtures.mgrWith Fixtures.authTokenOnly)) "acct").1 =
      Quota.kiroNormalize (.ok ⟨⟨"KIRO FREE"⟩, [], 0⟩) := by
  refine ⟨?_, ?_⟩
  · exact (claim2_discovery_then_fetch Fixtures.kiroWorldE2E
      (Fixtures.mgrWith Fixtures.authTokenOnly) "acct"
      Fixtures.authTokenOnly "abc" (by decide) (by decide) (by decide)
      (by decide)).2.2.1 "profilesBody" ⟨[⟨"arn-1"⟩, ⟨"arn-2"⟩]⟩ "arn-1"
      ["arn-2"] (by decide) rfl rfl rfl (by decide)
  · have h := (claim2_discovery_then_fetch Fixtures.kiroWorldDiscoveryFail
      (Fixtures.mgrWith Fixtures.authTokenOnly) "acct"
      Fixtures.authTokenOnly "abc" (by decide) (by decide) (by decide)
      (by decide)).2.2.2 "boom" (by decide) rfl
    exact ⟨h.1, h.2 "usageBody" ⟨⟨"KIRO FREE"⟩, [], 0⟩ rfl rfl⟩

/-- Counterexample to C3 as stated: in a run where the provider omits the
usage breakdown entirely (the parsed usage result carries an empty
`usageBreakdownList`), the numeric snapshot field `monthly_context_limit` is
100, not zero, so not all numeric snapshot fields default to zero. -/
theorem claim3_counterexample :
    Fixtures.kiroWorldDiscoveryFail.parseUsage "usageBody" =
      .ok ⟨⟨"KIRO FREE"⟩, [], 0⟩
    ∧ (Quota.GetKiroQuota Fixtures.kiroWorldDiscoveryFail
        (some (Fixtures.mgrWith Fixtures.authTokenOnly)) "acct").1 =
      .jsonOk ⟨"KIRO FREE", 0, 0, 0, 100⟩
    ∧ (⟨"KIRO FREE", 0, 0, 0, 100⟩ :
        Quota.KiroQuotaResponse).monthlyContextLimit ≠ 0 :=
  ⟨rfl, by decide, by decide⟩

/-- Claim C3 (amended): in the Kiro adapter's normalization step, only the
first entry of the usage-breakdown list is surfaced (its used amount becomes
the credit usage and its allotted amount the credit limit); the
usage-derived fields `credit_usage` and `monthly_credit_limit` (and the
constant `context_usage_percent`) are zero when the provider omits the
breakdown, while `monthly_context_limit` is the constant 100 rather than
zero. -/
theorem claim3_normalization
    (w : Quota.KiroWorld) (mgr : Quota.AuthManager) (authID : String)
    (auth : Quota.Auth)
    (haid : authID ≠ "") (hmgr : mgr authID = some auth)
    (htokne : Quota.metaStringField auth.metadata "access_token" ≠ "")
    (usage : Quota.KiroUsageResult) (tr : List Quota.KiroRequest)
    (hu : Quota.getUsageLimits w (.derivedFromInbound 30)
        (Quota.metaStringField auth.metadata "access_token")
        (Quota.kiroResolvedArn w auth) = (.ok usage, tr)) :
    (Quota.GetKiroQuota w (some mgr) authID).1 =
      .jsonOk
        { subscriptionTitle := usage.subscriptionInfo.subscriptionTitle
          creditUsage := ((usage.usageBreakdownList.head?).map
            (fun b => b.currentUsageWithPrecision)).getD 0
          contextUsagePercent := 0
          monthlyCreditLimit := ((usage.usageBreakdownList.head?).map
            (fun b => b.usageLimitWithPrecision)).getD 0
          monthlyContextLimit := 100 } := by
  rw [getKiroQuota_run w mgr authID auth haid hmgr htokne]
  simp [hu, Quota.kiroNormalize]

/-- Witness for C3 (amended): the end-to-end scenario — token `abc`, no
stored ARN, discovery returning an identifier, fetch reporting used 12.5
(25/2) of limit 50 — produces a snapshot with current usage 12.5 and limit
50. -/
theorem claim3_witness :
    (Quota.GetKiroQuota Fixtures.kiroWorldE2E
        (some (Fixtures.mgrWith Fixtures.authTokenOnly)) "acct").1 =
      .jsonOk ⟨"KIRO PRO", Fixtures.ratTwelveAndHalf, 0, 50, 100⟩ := by
  have h := claim3_normalization Fixtures.kiroWorldE2E
    (Fixtures.mgrWith Fixtures.authTokenOnly) "acct" Fixtures.authTokenOnly
    (by decide) (by decide) (by decide)
    ⟨⟨"KIRO PRO"⟩, [⟨Fixtures.ratTwelveAndHalf, 50⟩, ⟨1, 2⟩], 0⟩
    [Quota.kiroUsageRequest "abc" "arn-1"] rfl
  exact h.trans (by decide)

/-- Every branch of `fetchCopilotUsage` issues exactly the one request it
builds. -/
theorem fetchCopilotUsage_trace (w : Quota.CopilotWorld) (token : String) :
    (Quota.fetchCopilotUsage w token).2 = [Quota.copilotRequest token] := by
  cases hn : w.net (Quota.copilotRequest token) with
  | transportError m => simp [Quota.fetchCopilotUsage, hn]
  | readError m => simp [Quota.fetchCopilotUsage, hn]
  | response s b =>
    simp only [Quota.fetchCopilotUsage, hn]
    split
    · simp
    · cases w.parseUsage b <;> simp

/-- Counterexample to C4 as stated: a Copilot quota resolution whose single
outbound call was built without any caller-derived context (plain
`http.NewRequest`), so the network call is not under a timeout derived from
the inbound request's cancellation context. -/
theorem claim4_counterexample :
    (Quota.GetCopilotQuota Fixtures.copilotWorldOk
        (some (Fixtures.mgrWith Fixtures.authTokenOnly)) "acct").2 =
      [Quota.copilotRequest "abc"]
    ∧ (Quota.copilotRequest "abc").ctx = Quota.CtxKind.background
    ∧ Quota.CtxKind.background ≠ Quota.CtxKind.derivedFromInbound 30 :=
  ⟨by decide, by decide, by decide⟩

/-- Claim C4 (amended): every outbound call of the Kiro (discovery-then-
fetch) handler runs under the 30-second timeout context derived from the
inbound request, while every outbound call of the Copilot (direct-fetch)
handler is built without caller context and bounded only by the fixed
30-second client timeout, so caller-side cancellation propagates into the
Kiro calls but not into the Copilot call. -/
theorem claim4_context_derivation :
    (∀ (w : Quota.KiroWorld) (mgr : Option Quota.AuthManager)
       (authID : String) (r : Quota.KiroRequest),
        r ∈ (Quota.GetKiroQuota w mgr authID).2 →
        r.ctx = .derivedFromInbound 30)
    ∧ (∀ (w : Quota.CopilotWorld) (mgr : Option Quota.AuthManager)
        (authID : String) (c : Quota.CopilotCall),
        c ∈ (Quota.GetCopilotQuota w mgr authID).2 →
        c.ctx = .background ∧ c.clientTimeoutSecs = 30) := by
  constructor
  · intro w mgr authID r hr
    by_cases haid : authID = ""
    · subst haid
      simp [Quota.GetKiroQuota] at hr
    · cases mgr with
      | none => simp [Quota.GetKiroQuota, haid] at hr
      | some getByID =>
        cases hauth : getByID authID with
        | none => simp [Quota.GetKiroQuota, haid, hauth] at hr
        | some auth =>
          by_cases htok :
              Quota.metaStringField auth.metadata "access_token" = ""
          · simp [Quota.GetKiroQuota, haid, hauth, htok] at hr
          · rw [getKiroQuota_run w getByID authID auth haid hauth htok]
              at hr
            by_cases harn :
                Quota.metaStringField auth.metadata "profile_arn" = ""
            · simp [Quota.kiroDiscoveryTrace, harn, listProfiles_trace,
                getUsageLimits_trace] at hr
              rcases hr with h1 | h2
              · rw [h1]
              · rw [h2]
            · simp [Quota.kiroDiscoveryTrace, harn,
                getUsageLimits_trace] at hr
              rw [hr]
  · intro w mgr authID c hc
    by_cases haid : authID = ""
    · subst haid
      simp [Quota.GetCopilotQuota] at hc
    · cases mgr with
      | none => simp [Quota.GetCopilotQuota, haid] at hc
      | some getByID =>
        cases hauth : getByID authID with
        | none => simp [Quota.GetCopilotQuota, haid, hauth] at hc
        | some auth =>
          by_cases htok :
              Quota.metaStringField auth.metadata "access_token" = ""
          · simp [Quota.GetCopilotQuota, haid, hauth, htok] at hc
          · rcases hf : Quota.fetchCopilotUsage w
                (Quota.metaStringField auth.metadata "access_token") with
              ⟨res, tr⟩
            have htr := fetchCopilotUsage_trace w
              (Quota.metaStringField auth.metadata "access_token")
            rw [hf] at htr
            simp only at htr
            cases res <;>
              simp [Quota.GetCopilotQuota, haid, hauth, htok, hf, htr]
                at hc <;>
              rw [hc] <;> exact ⟨rfl, rfl⟩

/-- Witness for C4 (amended): in the end-to-end Kiro run both recorded calls
carry the inbound-derived 30-second context, and the Copilot run's call is
context-free with the fixed client timeout. -/
theorem claim4_witness :
    (Quota.kiroListRequest "abc").ctx = .derivedFromInbound 30
    ∧ (Quota.copilotRequest "abc").ctx = .background
    ∧ (Quota.copilotRequest "abc").clientTimeoutSecs = 30 := by
  refine ⟨claim4_context_derivation.1 Fixtures.kiroWorldE2E
      (some (Fixtures.mgrWith Fixtures.authTokenOnly)) "acct"
      (Quota.kiroListRequest "abc") (by decide), ?_, ?_⟩
  · exact (claim4_context_derivation.2 Fixtures.copilotWorldOk
      (some (Fixtures.mgrWith Fixtures.authTokenOnly)) "acct"
      (Quota.copilotRequest "abc") (by decide)).1
  · exact (claim4_context_derivation.2 Fixtures.copilotWorldOk
      (some (Fixtures.mgrWith Fixtures.authTokenOnly)) "acct"
      (Quota.copilotRequest "abc") (by decide)).2

/-- Claim C5: in the Copilot adapter, a non-success HTTP status yields an
error whose message contains both the numeric status code and the raw
response body text, while a success-status response whose body fails to
parse yields a parse-failure error whose message can never coincide with a
status-rejection message. -/
theorem claim5_copilot_failure_modes
    (w : Quota.CopilotWorld) (token : String) (status : Nat)
    (body e : String) :
    (w.net (Quota.copilotRequest token) = .response status body →
      status ≠ 200 →
      (Quota.fetchCopilotUsage w token).1 =
        .error ("API returned status " ++ toString status ++ ": " ++ body)
      ∧ (∃ pre post,
          "API returned status " ++ toString status ++ ": " ++ body =
            pre ++ toString status ++ post)
      ∧ (∃ pre post,
          "API returned status " ++ toString status ++ ": " ++ body =
            pre ++ body ++ post))
    ∧ (w.net (Quota.copilotRequest token) = .response 200 body →
        w.parseUsage body = .error e →
        (Quota.fetchCopilotUsage w token).1 =
          .error ("failed to parse response: " ++ e))
    ∧ (∀ s b e₂, "API returned status " ++ s ++ ": " ++ b ≠
        "failed to parse response: " ++ e₂) := by
  refine ⟨fun hnet hst => ?_, fun hnet hparse => ?_, fun s b e₂ h => ?_⟩
  · refine ⟨by simp [Quota.fetchCopilotUsage, hnet, hst], ?_, ?_⟩
    · exact ⟨"API returned status ", ": " ++ body,
        by simp [String.append_assoc]⟩
    · exact ⟨"API returned status " ++ toString status ++ ": ", "",
        by simp [String.append_assoc]⟩
  · simp [Quota.fetchCopilotUsage, hnet, hparse]
  · have h2 := congrArg String.data h
    rw [String.data_append, String.data_append, String.data_append,
      String.data_append] at h2
    have hA : "API returned status ".data =
        'A' :: "PI returned status ".data := by decide
    have hf : "failed to parse response: ".data =
        'f' :: "ailed to parse response: ".data := by decide
    rw [hA, hf] at h2
    simp only [List.cons_append, List.cons.injEq] at h2
    exact absurd h2.1 (by decide)

/-- Witness for C5: a 429 rejection with body `rate limited` produces an
error mentioning both, and a 200 response with an undecodable body produces
the distinct parse-failure error. -/
theorem claim5_witness :
    (Quota.fetchCopilotUsage Fixtures.copilotWorld429 "tok").1 =
      .error "API returned status 429: rate limited"
    ∧ (∃ pre post, ("API returned status 429: rate limited" : String) =
        pre ++ "429" ++ post)
    ∧ (∃ pre post, ("API returned status 429: rate limited" : String) =
        pre ++ "rate limited" ++ post)
    ∧ (Quota.fetchCopilotUsage Fixtures.copilotWorldBadBody "tok").1 =
      .error "failed to parse response: invalid character"
    ∧ "API returned status 429: rate limited" ≠
      "failed to parse response: invalid character" := by
  have h := (claim5_copilot_failure_modes Fixtures.copilotWorld429 "tok" 429
    "rate limited" "").1 rfl (by decide)
  have hp := (claim5_copilot_failure_modes Fixtures.copilotWorldBadBody
    "tok" 200 "garbage" "invalid character").2.1 rfl rfl
  have hlit : ("API returned status 429: rate limited" : String) =
      "API returned status " ++ toString (429 : Nat) ++ ": " ++
        "rate limited" := by decide
  refine ⟨h.1.trans (congrArg Except.error hlit.symm), ?_, ?_, hp, ?_⟩
  · obtain ⟨pre, post, hpp⟩ := h.2.1
    exact ⟨pre, post, by rw [hlit, hpp,
      (by decide : toString (429 : Nat) = "429")]⟩
  · obtain ⟨pre, post, hpp⟩ := h.2.2
    exact ⟨pre, post, by rw [hlit, hpp]⟩
  · rw [hlit]
    exact (claim5_copilot_failure_modes Fixtures.copilotWorld429 "tok" 429
      "rate limited" "").2.2 (toString (429 : Nat)) "rate limited"
      "invalid character"

/-- Claim C6: `GetStaticModelDefinitionsByChannel` matches the channel key
case-insensitively after trimming surrounding whitespace — any two keys
equal after trimming and lowercasing give the same result — and every key
not naming a known channel gives the empty result, never an error. -/
theorem claim6_channel_key_matching :
    (∀ (t : Registry.StaticTables) (c₁ c₂ : String),
      Registry.goToLower (Registry.goTrim c₁) =
        Registry.goToLower (Registry.goTrim c₂) →
      Registry.GetStaticModelDefinitionsByChannel t c₁ =
        Registry.GetStaticModelDefinitionsByChannel t c₂)
    ∧ (∀ (t : Registry.StaticTables) (c : String),
        Registry.goToLower (Registry.goTrim c) ∉ Registry.knownChannels →
        Registry.GetStaticModelDefinitionsByChannel t c = []) := by
  constructor
  · intro t c₁ c₂ h
    simp only [Registry.GetStaticModelDefinitionsByChannel]
    rw [h]
  · intro t c h
    simp only [Registry.knownChannels, List.mem_cons,
      List.not_mem_nil, or_false, not_or] at h
    obtain ⟨h1, h2, h3, h4, h5, h6, h7, h8, h9⟩ := h
    simp [Registry.GetStaticModelDefinitionsByChannel, h1, h2, h3, h4, h5,
      h6, h7, h8, h9]

/-- Witness for C6: ` CLAUDE ` and `claude` resolve to the same table, and
an unknown key gives the empty result. -/
theorem claim6_witness :
    Registry.GetStaticModelDefinitionsByChannel Fixtures.collisionTables
      " CLAUDE " =
      Registry.GetStaticModelDefinitionsByChannel Fixtures.collisionTables
        "claude"
    ∧ Registry.GetStaticModelDefinitionsByChannel Fixtures.collisionTables
        "mystery" = [] :=
  ⟨claim6_channel_key_matching.1 Fixtures.collisionTables " CLAUDE "
      "claude" (by decide),
   claim6_channel_key_matching.2 Fixtures.collisionTables "mystery"
      (by decide)⟩

/-- Counterexample to C7 as stated: two association lists representing the
same antigravity configuration map (the identifiers `A` and `a`, which
collide after lowercasing, in the two possible iteration orders) derive
different sequences, so the output is not a function of the configuration
map alone — Go's randomized map iteration order feeding an unstable sort
makes the colliding entries' relative order unspecified. -/
theorem claim7_counterexample :
    Fixtures.cfgTieA.Perm Fixtures.cfgTieB
    ∧ Registry.antigravityModelsFromConfig Fixtures.cfgTieA ≠
      Registry.antigravityModelsFromConfig Fixtures.cfgTieB :=
  ⟨by decide, by decide⟩

/-- Two lists sorted by the lowered-identifier order that are permutations
of each other and whose lowered identifiers are pairwise distinct are
equal. -/
theorem sorted_antigravity_eq {l₁ l₂ : List Registry.ModelInfo}
    (hp : l₁.Perm l₂) (s₁ : l₁.Sorted Registry.antigravityLe)
    (s₂ : l₂.Sorted Registry.antigravityLe)
    (hnd : (l₁.map Registry.lowerKey).Nodup) : l₁ = l₂ := by
  have hnd₂ : (l₂.map Registry.lowerKey).Nodup :=
    (hp.map Registry.lowerKey).nodup hnd
  rw [List.Nodup, List.pairwise_map] at hnd hnd₂
  have s₁' : l₁.Pairwise
      (fun a b => Registry.lowerKey a < Registry.lowerKey b ∨ a = b) :=
    (List.Pairwise.and s₁ hnd).imp
      (fun h => Or.inl (lt_of_le_of_ne h.1 h.2))
  have s₂' : l₂.Pairwise
      (fun a b => Registry.lowerKey a < Registry.lowerKey b ∨ a = b) :=
    (List.Pairwise.and s₂ hnd₂).imp
      (fun h => Or.inl (lt_of_le_of_ne h.1 h.2))
  refine @List.eq_of_perm_of_sorted _
    (fun a b => Registry.lowerKey a < Registry.lowerKey b ∨ a = b)
    ⟨?_⟩ _ _ hp s₁' s₂'
  intro a b hab hba
  rcases hab with hab | hab
  · rcases hba with hba | hba
    · exact absurd hba (lt_asymm hab)
    · exact hba.symm
  · exact hab

/-- Claim C7 (amended): the antigravity channel's derived list contains no
entry with an empty identifier (empty-identifier and nil-override entries
are skipped), is sorted by identifier case-insensitively in ascending
order, and — provided the kept identifiers are pairwise distinct after
lowercasing — is the same for every iteration order of the same
configuration map; with lowercase-colliding identifiers the relative order
of the colliding entries is not determined by the map. -/
theorem claim7_antigravity_derivation
    (cfg : List (String × Option Registry.AntigravityModelEntry)) :
    (∀ m ∈ Registry.antigravityModelsFromConfig cfg, m.id ≠ "")
    ∧ (Registry.antigravityModelsFromConfig cfg).Sorted
        Registry.antigravityLe
    ∧ (∀ cfg₂, cfg.Perm cfg₂ →
        ((Registry.antigravityModelsFromConfig cfg).map
          Registry.lowerKey).Nodup →
        Registry.antigravityModelsFromConfig cfg =
          Registry.antigravityModelsFromConfig cfg₂) := by
  refine ⟨?_, ?_, ?_⟩
  · intro m hm
    unfold Registry.antigravityModelsFromConfig at hm
    split at hm
    · simp at hm
    · rw [List.mem_insertionSort, List.mem_filterMap] at hm
      obtain ⟨⟨mid, e⟩, hp, hf⟩ := hm
      cases e with
      | none => simp at hf
      | some entry =>
        by_cases hmid : mid = ""
        · simp [hmid] at hf
        · simp only [hmid, if_neg, ite_false, Option.some.injEq] at hf
          rw [← hf]
          exact hmid
  · unfold Registry.antigravityModelsFromConfig
    split
    · exact List.sorted_nil
    · exact List.sorted_insertionSort Registry.antigravityLe _
  · intro cfg₂ hperm hnd
    by_cases hemp : cfg.isEmpty
    · have hemp₂ : cfg₂.isEmpty := by
        rw [List.isEmpty_iff] at hemp ⊢
        subst hemp
        exact hperm.symm.eq_nil
      unfold Registry.antigravityModelsFromConfig
      rw [if_pos hemp, if_pos hemp₂]
    · have hemp₂ : ¬ cfg₂.isEmpty := by
        rw [List.isEmpty_iff] at hemp ⊢
        intro hnil
        subst hnil
        exact hemp hperm.eq_nil
      have hkept := hperm.filterMap
        (fun p : String × Option Registry.AntigravityModelEntry =>
          match p with
          | (_, none) => none
          | (mid, some entry) =>
            if mid = "" then none
            else some { Registry.zeroModelInfo with
              id := mid, object := "model", ownedBy := "antigravity"
              typ := "antigravity", thinking := entry.thinking
              maxCompletionTokens := entry.maxCompletionTokens })
      have hout : (Registry.antigravityModelsFromConfig cfg).Perm
          (Registry.antigravityModelsFromConfig cfg₂) := by
        unfold Registry.antigravityModelsFromConfig
        rw [if_neg hemp, if_neg hemp₂]
        exact (List.perm_insertionSort _ _).trans
          (hkept.trans (List.perm_insertionSort _ _).symm)
      have hs₁ : (Registry.antigravityModelsFromConfig cfg).Sorted
          Registry.antigravityLe := by
        unfold Registry.antigravityModelsFromConfig
        rw [if_neg hemp]
        exact List.sorted_insertionSort Registry.antigravityLe _
      have hs₂ : (Registry.antigravityModelsFromConfig cfg₂).Sorted
          Registry.antigravityLe := by
        unfold Registry.antigravityModelsFromConfig
        rw [if_neg hemp₂]
        exact List.sorted_insertionSort Registry.antigravityLe _
      exact sorted_antigravity_eq hout hs₁ hs₂ hnd

/-- Witness for C7 (amended): a configuration with distinct lowercased
identifiers (plus an empty-identifier entry and a nil entry, both skipped)
derives the same sorted list under two different iteration orders. -/
theorem claim7_witness :
    Registry.antigravityModelsFromConfig Fixtures.cfgDistinctA =
      Registry.antigravityModelsFromConfig Fixtures.cfgDistinctB
    ∧ (Registry.antigravityModelsFromConfig Fixtures.cfgDistinctA).Sorted
        Registry.antigravityLe :=
  ⟨(claim7_antigravity_derivation Fixtures.cfgDistinctA).2.2
      Fixtures.cfgDistinctB (by decide) (by decide),
   (claim7_antigravity_derivation Fixtures.cfgDistinctA).2.1⟩

/-- Claim C8: `LookupStaticModelInfo` returns not-found for the empty
identifier; the scan over the array tables is first-match in the fixed
order (a table match hides every later table, so an identifier collision
always resolves to the earliest table); and the antigravity configuration
is consulted only when no array-based table matches. Together with the
function being a pure function of its inputs, two invocations with the
same identifier over the same tables always return the same descriptor. -/
theorem claim8_lookup_first_match :
    (∀ t : Registry.StaticTables, Registry.LookupStaticModelInfo t "" = none)
    ∧ (∀ (mid : String) (ts₁ ts₂ : List (List (Option Registry.ModelInfo)))
        (tb : List (Option Registry.ModelInfo)) (m : Registry.ModelInfo),
        (∀ tb₁ ∈ ts₁, Registry.findModelInTable mid tb₁ = none) →
        Registry.findModelInTable mid tb = some m →
        Registry.findModelInTables mid (ts₁ ++ tb :: ts₂) = some m)
    ∧ (∀ (t : Registry.StaticTables) (mid : String) (m : Registry.ModelInfo),
        mid ≠ "" →
        Registry.findModelInTables mid (Registry.scanTables t) = some m →
        Registry.LookupStaticModelInfo t mid = some m)
    ∧ (∀ (t : Registry.StaticTables) (mid : String),
        mid ≠ "" →
        Registry.findModelInTables mid (Registry.scanTables t) = none →
        Registry.LookupStaticModelInfo t mid =
          (match Registry.lookupAntigravityConfig t.antigravityConfig mid with
           | some e => some { Registry.zeroModelInfo with
               id := mid, thinking := e.thinking
               maxCompletionTokens := e.maxCompletionTokens }
           | none => none)) := by
  refine ⟨?_, ?_, ?_, ?_⟩
  · intro t
    simp [Registry.LookupStaticModelInfo]
  · intro mid ts₁ ts₂ tb m hmiss hhit
    induction ts₁ with
    | nil => simp [Registry.findModelInTables, hhit]
    | cons hd tl ih =>
      have hhd := hmiss hd (by simp)
      simp only [List.cons_append, Registry.findModelInTables, hhd]
      exact ih (fun tb₁ htb₁ => hmiss tb₁ (by simp [htb₁]))
  · intro t mid m hmid hscan
    simp [Registry.LookupStaticModelInfo, hmid, hscan]
  · intro t mid hmid hscan
    simp [Registry.LookupStaticModelInfo, hmid, hscan]

/-- Witness for C8: the empty identifier is not found, and `X`, defined in
both the claude and the gemini tables, resolves to the claude-side
descriptor because claude is scanned first. -/
theorem claim8_witness :
    Registry.LookupStaticModelInfo Fixtures.collisionTables "" = none
    ∧ Registry.findModelInTable "X" Fixtures.collisionTables.gemini =
        some (Fixtures.plainModel "X" "gemini-side")
    ∧ Registry.LookupStaticModelInfo Fixtures.collisionTables "X" =
        some (Fixtures.plainModel "X" "claude-side") :=
  ⟨claim8_lookup_first_match.1 Fixtures.collisionTables,
   by decide,
   claim8_lookup_first_match.2.2.1 Fixtures.collisionTables "X"
     (Fixtures.plainModel "X" "claude-side") (by decide) (by decide)⟩

/-- Claim C9: every successful reply of the Kiro quota handler carries
`context_usage_percent` 0.0 and `monthly_context_limit` 100.0, whatever the
provider returned — the two fields are constants never overwritten by
provider data. -/
theorem claim9_constant_context_fields
    (w : Quota.KiroWorld) (mgr : Option Quota.AuthManager) (authID : String)
    (resp : Quota.KiroQuotaResponse)
    (h : (Quota.GetKiroQuota w mgr authID).1 = .jsonOk resp) :
    resp.contextUsagePercent = 0 ∧ resp.monthlyContextLimit = 100 := by
  by_cases haid : authID = ""
  · subst haid
    simp [Quota.GetKiroQuota] at h
  · cases mgr with
    | none => simp [Quota.GetKiroQuota, haid] at h
    | some getByID =>
      cases hauth : getByID authID with
      | none => simp [Quota.GetKiroQuota, haid, hauth] at h
      | some auth =>
        by_cases htok :
            Quota.metaStringField auth.metadata "access_token" = ""
        · simp [Quota.GetKiroQuota, haid, hauth, htok] at h
        · rw [getKiroQuota_run w getByID authID auth haid hauth htok] at h
          simp only at h
          rcases hu : (Quota.getUsageLimits w (.derivedFromInbound 30)
              (Quota.metaStringField auth.metadata "access_token")
              (Quota.kiroResolvedArn w auth)).1 with e | usage
          · rw [hu] at h
            simp [Quota.kiroNormalize] at h
          · rw [hu] at h
            simp only [Quota.kiroNormalize,
              Quota.KiroHandlerResult.jsonOk.injEq] at h
            rw [← h]
            exact ⟨rfl, rfl⟩

/-- Witness for C9: a successful run whose provider reported a non-empty
usage breakdown still carries the constants 0 and 100 in the two context
fields. -/
theorem claim9_witness :
    (⟨"KIRO PRO", Fixtures.ratTwelveAndHalf, 0, 50, 100⟩ :
      Quota.KiroQuotaResponse).contextUsagePercent = 0
    ∧ (⟨"KIRO PRO", Fixtures.ratTwelveAndHalf, 0, 50, 100⟩ :
      Quota.KiroQuotaResponse).monthlyContextLimit = 100 :=
  claim9_constant_context_fields Fixtures.kiroWorldE2E
    (some (Fixtures.mgrWith Fixtures.authTokenOnly)) "acct"
    ⟨"KIRO PRO", Fixtures.ratTwelveAndHalf, 0, 50, 100⟩ (by decide)

/-- Claim C10: for an identifier present only in the antigravity
configuration, `LookupStaticModelInfo` builds a descriptor carrying only
the identifier, the reasoning-support shape and the completion-token cap,
with empty object, owner and channel tags — while the descriptor for the
same identifier in `GetStaticModelDefinitionsByChannel "antigravity"`
carries `model`/`antigravity`/`antigravity` in those tags, so the two are
not field-for-field equal. -/
theorem claim10_antigravity_descriptor_asymmetry
    (t : Registry.StaticTables) (mid : String)
    (e : Registry.AntigravityModelEntry)
    (hmid : mid ≠ "")
    (hmiss : Registry.findModelInTables mid (Registry.scanTables t) = none)
    (hcfg : Registry.lookupAntigravityConfig t.antigravityConfig mid =
      some e) :
    Registry.LookupStaticModelInfo t mid =
      some { Registry.zeroModelInfo with
        id := mid, thinking := e.thinking
        maxCompletionTokens := e.maxCompletionTokens }
    ∧ (∃ m, some m ∈
        Registry.GetStaticModelDefinitionsByChannel t "antigravity"
        ∧ m = { Registry.zeroModelInfo with
            id := mid, object := "model", ownedBy := "antigravity"
            typ := "antigravity", thinking := e.thinking
            maxCompletionTokens := e.maxCompletionTokens }
        ∧ Registry.LookupStaticModelInfo t mid ≠ some m) := by
  have hlookup : Registry.LookupStaticModelInfo t mid =
      some { Registry.zeroModelInfo with
        id := mid, thinking := e.thinking
        maxCompletionTokens := e.maxCompletionTokens } := by
    simp [Registry.LookupStaticModelInfo, hmid, hmiss, hcfg]
  refine ⟨hlookup, ?_⟩
  obtain ⟨p, hfind⟩ :
      ∃ p, t.antigravityConfig.find? (fun q => q.1 == mid) = some p := by
    unfold Registry.lookupAntigravityConfig at hcfg
    rcases hf : t.antigravityConfig.find? (fun q => q.1 == mid) with _ | p
    · rw [hf] at hcfg
      simp at hcfg
    · exact ⟨p, hf⟩
  have hp₁ : p.1 = mid := by
    have := List.find?_some hfind
    exact eq_of_beq this
  have hp₂ : p.2 = some e := by
    unfold Registry.lookupAntigravityConfig at hcfg
    rw [hfind] at hcfg
    rcases p with ⟨p₁, _ | e₁⟩
    · simp at hcfg
    · simpa using hcfg
  have hmem : (mid, some e) ∈ t.antigravityConfig := by
    have := List.mem_of_find?_eq_some hfind
    rwa [(by rw [← hp₁, ← hp₂] : (mid, some e) = p)]
  have hkept : ({ Registry.zeroModelInfo with
      id := mid, object := "model", ownedBy := "antigravity"
      typ := "antigravity", thinking := e.thinking
      maxCompletionTokens := e.maxCompletionTokens } : Registry.ModelInfo)
      ∈ Registry.antigravityModelsFromConfig t.antigravityConfig := by
    unfold Registry.antigravityModelsFromConfig
    rw [if_neg (by
      rw [List.isEmpty_iff]
      exact List.ne_nil_of_mem hmem)]
    rw [List.mem_insertionSort, List.mem_filterMap]
    exact ⟨(mid, some e), hmem, by simp [hmid]⟩
  refine ⟨{ Registry.zeroModelInfo with
      id := mid, object := "model", ownedBy := "antigravity"
      typ := "antigravity", thinking := e.thinking
      maxCompletionTokens := e.maxCompletionTokens }, ?_, rfl, ?_⟩
  · have hkey : Registry.goToLower (Registry.goTrim "antigravity") =
        "antigravity" := by decide
    simp only [Registry.GetStaticModelDefinitionsByChannel, hkey]
    norm_num
    exact List.mem_map_of_mem some hkept
  · rw [hlookup]
    intro heq
    rw [Option.some.injEq] at heq
    have := congrArg Registry.ModelInfo.object heq
    simp [Registry.zeroModelInfo] at this

/-- Witness for C10: in the collision fixture the identifier `ag-only`
exists only in the antigravity configuration; the lookup descriptor leaves
the tags empty while the channel descriptor sets them, and the two
differ. -/
theorem claim10_witness :
    Registry.LookupStaticModelInfo Fixtures.collisionTables "ag-only" =
      some { Registry.zeroModelInfo with
        id := "ag-only", thinking := none, maxCompletionTokens := 9 }
    ∧ (∃ m, some m ∈
        Registry.GetStaticModelDefinitionsByChannel Fixtures.collisionTables
          "antigravity"
        ∧ m = { Registry.zeroModelInfo with
            id := "ag-only", object := "model", ownedBy := "antigravity"
            typ := "antigravity", thinking := none
            maxCompletionTokens := 9 }
        ∧ Registry.LookupStaticModelInfo Fixtures.collisionTables "ag-only"
            ≠ some m) :=
  claim10_antigravity_descriptor_asymmetry Fixtures.collisionTables
    "ag-only" ⟨none, 9⟩ (by decide) (by decide) (by decide)
